import Mathlib

/-!
# Verification of the data-extraction pipeline (pipeline.py)

A shallow embedding of the reporting script: the relational tables are
lists of records, SQL inner joins are nested flat-maps with filters,
GROUP BY is grouping over the distinct key values, pandas groupby is the
same with sorted keys, and the monetary ROUND(x, 2) of SQLite is exact
rounding on rationals. Dates are structured (year, month, day) records;
the strftime format codes %Y and %m are zero-padded decimal renderings
of the components, as SQLite produces for its representable date range
(years 0000 to 9999).
-/

/-- A calendar date as carried by invoices.InvoiceDate. -/
structure Date where
  year : ℕ
  month : ℕ
  day : ℕ
deriving DecidableEq, Inhabited

/-- A year-month period, the value of pandas to_period with frequency M. -/
structure Period where
  y : ℕ
  m : ℕ
deriving DecidableEq, Inhabited

/-- A row of the invoices table. -/
structure Invoice where
  invoiceId : ℕ
  invoiceDate : Date
deriving DecidableEq, Inhabited

/-- A row of the invoice_items table (a line item). -/
structure InvoiceItem where
  invoiceId : ℕ
  trackId : ℕ
  unitPrice : ℚ
  quantity : ℤ
deriving DecidableEq, Inhabited

/-- A row of the tracks table. -/
structure Track where
  trackId : ℕ
  albumId : ℕ
  genreId : ℕ
deriving DecidableEq, Inhabited

/-- A row of the albums table. -/
structure Album where
  albumId : ℕ
  artistId : ℕ
deriving DecidableEq, Inhabited

/-- A row of the artists table. -/
structure Artist where
  artistId : ℕ
  name : String
deriving DecidableEq, Inhabited

/-- A row of the genres table. -/
structure Genre where
  genreId : ℕ
  name : String
deriving DecidableEq, Inhabited

/-- The state of the SQLite database the pipeline reads. -/
structure DB where
  invoices : List Invoice
  invoice_items : List InvoiceItem
  tracks : List Track
  albums : List Album
  artists : List Artist
  genres : List Genre
deriving DecidableEq, Inhabited

/-- The decimal digit character of n % 10. -/
def digitChar (n : ℕ) : Char := Char.ofNat (48 + n % 10)

/-- Two-digit zero-padded decimal rendering, as strftime %m produces. -/
def pad2 (n : ℕ) : List Char :=
  [digitChar (n / 10), digitChar n]

/-- Four-digit zero-padded decimal rendering, as strftime %Y produces
for the representable SQLite years 0 to 9999. -/
def pad4 (n : ℕ) : List Char :=
  [digitChar (n / 1000), digitChar (n / 100), digitChar (n / 10), digitChar n]

/-- Unpadded decimal digits of a natural number, with structural fuel so
that the kernel can evaluate it. -/
def natDigitsAux : ℕ → ℕ → List Char
  | 0, _ => []
  | fuel + 1, n => if n < 10 then [digitChar n] else natDigitsAux fuel (n / 10) ++ [digitChar n]

/-- The decimal text of a natural number; models the text SQLite obtains
when it applies TEXT affinity to an integer parameter. -/
def natText (n : ℕ) : String := ⟨natDigitsAux (n + 1) n⟩

/-- strftime with format %Y on a date. -/
def strftimeY (d : Date) : String := ⟨pad4 d.year⟩

/-- strftime with format %m on a date. -/
def strftimeM (d : Date) : String := ⟨pad2 d.month⟩

/-- The grouping key of get_sales_by_month_sql:
strftime %Y of the invoice date, then "-", then strftime %m. -/
def sqlMonthKey (d : Date) : String := ⟨pad4 d.year ++ '-' :: pad2 d.month⟩

/-- The engine-side text for a year-month period, in the same
YYYY-MM shape that sqlMonthKey produces. -/
def periodText (p : Period) : String := ⟨pad4 p.y ++ '-' :: pad2 p.m⟩

/-- The quarter label of get_sales_by_quarter: strftime %Y, then the
letter Q, then the integer (month + 2) / 3. SQLite coerces the %m text
to an integer for the arithmetic, divides integers with truncation, and
FLOOR keeps the integer unchanged. -/
def quarterKey (d : Date) : String :=
  strftimeY d ++ "Q" ++ natText ((d.month + 2) / 3)

/-- pandas to_period with frequency M applied to an invoice date. -/
def toPeriodM (d : Date) : Period := ⟨d.year, d.month⟩

/-- SQLite ROUND(x, 2): round to two decimal places. -/
def round2 (q : ℚ) : ℚ := ((round (q * 100) : ℤ) : ℚ) / 100

/-- FROM invoice_items ii INNER JOIN invoices i ON i.InvoiceId = ii.InvoiceId,
in nested-loop order. -/
def joinItemsInvoices (db : DB) : List (InvoiceItem × Invoice) :=
  db.invoice_items.flatMap fun ii =>
    (db.invoices.filter fun i => decide (i.invoiceId = ii.invoiceId)).map fun i => (ii, i)

/-- The five-table join of get_top_artists_by_sales:
invoice_items, invoices, tracks, albums, artists, in join order. -/
def joinFull (db : DB) : List (InvoiceItem × Invoice × Track × Album × Artist) :=
  db.invoice_items.flatMap fun ii =>
    (db.invoices.filter fun i => decide (i.invoiceId = ii.invoiceId)).flatMap fun i =>
      (db.tracks.filter fun t => decide (t.trackId = ii.trackId)).flatMap fun t =>
        (db.albums.filter fun al => decide (al.albumId = t.albumId)).flatMap fun al =>
          (db.artists.filter fun ar => decide (ar.artistId = al.artistId)).map fun ar =>
            (ii, i, t, al, ar)

/-- FROM genres g INNER JOIN tracks t ON t.GenreId = g.GenreId. -/
def joinGenresTracks (db : DB) : List (Genre × Track) :=
  db.genres.flatMap fun g =>
    (db.tracks.filter fun t => decide (t.genreId = g.genreId)).map fun t => (g, t)

/-- Insert one element into a list so that it lands before the first
element it relates to under le. -/
def insertLe {α : Type} (le : α → α → Bool) (a : α) : List α → List α
  | [] => [a]
  | b :: bs => if le a b then a :: b :: bs else b :: insertLe le a bs

/-- Insertion sort under the Bool relation le; models an engine ORDER BY
and the pandas sorts, whose behaviour on ties is unspecified. -/
def sortLe {α : Type} (le : α → α → Bool) : List α → List α
  | [] => []
  | a :: as => insertLe le a (sortLe le as)

/-- The distinct grouping-key values occurring in a list. -/
def groupKeys {α κ : Type} [DecidableEq κ] (key : α → κ) (l : List α) : List κ :=
  (l.map key).dedup

/-- The rows of one group: those whose key equals k. -/
def groupRows {α κ : Type} [DecidableEq κ] (key : α → κ) (k : κ) (l : List α) : List α :=
  l.filter fun a => decide (key a = k)

/-- Lexicographic comparison of character lists by code point. -/
def charListLe : List Char → List Char → Bool
  | [], _ => true
  | _ :: _, [] => false
  | c :: cs, d :: ds =>
      if c.toNat < d.toNat then true
      else if d.toNat < c.toNat then false
      else charListLe cs ds

/-- Ordering used by pandas when it sorts string group keys:
lexicographic by code point. -/
def strLeB (a b : String) : Bool := charListLe a.data b.data

/-- Ordering used by pandas when it sorts period group keys. -/
def periodLeB (p q : Period) : Bool :=
  decide (p.y < q.y) || (decide (p.y = q.y) && decide (p.m ≤ q.m))

/-- A result row of get_sales_by_month_sql, in SELECT order:
Quantity, TotalSales, Month. -/
structure MonthSqlRow where
  Quantity : ℚ
  TotalSales : ℚ
  Month : String
deriving DecidableEq, Inhabited

/-- get_sales_by_month_sql: join line items to invoices, group by the
YYYY-MM month text, and aggregate ROUND(SUM(Quantity), 2) and
ROUND(SUM(UnitPrice * Quantity), 2). -/
def get_sales_by_month_sql (db : DB) : List MonthSqlRow :=
  (groupKeys (fun r => sqlMonthKey r.2.invoiceDate) (joinItemsInvoices db)).map fun k =>
    { Quantity :=
        round2 (((groupRows (fun r => sqlMonthKey r.2.invoiceDate) k (joinItemsInvoices db)).map
          fun r => ((r.1.quantity : ℤ) : ℚ)).sum),
      TotalSales :=
        round2 (((groupRows (fun r => sqlMonthKey r.2.invoiceDate) k (joinItemsInvoices db)).map
          fun r => r.1.unitPrice * ((r.1.quantity : ℤ) : ℚ)).sum),
      Month := k }

/-- A result row of get_sales_by_month_pd: the groupby index holds the
period, and the aggregated columns are TotalSales, Quantity, Month in
the order the named aggregation lists them. -/
structure MonthPdRow where
  index : Period
  TotalSales : ℚ
  Quantity : ℤ
  Month : Period
deriving DecidableEq, Inhabited

/-- get_sales_by_month_pd: fetch the joined line items, derive the
period column, multiply price by quantity, group by the period with
sorted keys, and aggregate sums plus the first period of each group. -/
def get_sales_by_month_pd (db : DB) : List MonthPdRow :=
  (sortLe periodLeB (groupKeys (fun r => toPeriodM r.2.invoiceDate) (joinItemsInvoices db))).map
    fun p =>
      { index := p,
        TotalSales :=
          (((groupRows (fun r => toPeriodM r.2.invoiceDate) p (joinItemsInvoices db)).map
            fun r => r.1.unitPrice * ((r.1.quantity : ℤ) : ℚ)).sum),
        Quantity :=
          (((groupRows (fun r => toPeriodM r.2.invoiceDate) p (joinItemsInvoices db)).map
            fun r => r.1.quantity).sum),
        Month :=
          (((groupRows (fun r => toPeriodM r.2.invoiceDate) p (joinItemsInvoices db)).map
            fun r => toPeriodM r.2.invoiceDate).headD default) }

/-- A result row of the active get_top_artists_by_sales: the groupby
index holds the artist name; the data columns are TotalSales, Quantity,
Month in aggregation order. -/
structure ArtistRow where
  index : String
  TotalSales : ℚ
  Quantity : ℤ
  Month : Period
deriving DecidableEq, Inhabited

/-- The artist name of a fully joined row. -/
def artistNameOf (r : InvoiceItem × Invoice × Track × Album × Artist) : String :=
  r.2.2.2.2.name

/-- The second (active) definition of get_top_artists_by_sales: fetch
the five-table join, group by artist name with sorted keys, aggregate
the raw sums and the first period, sort by TotalSales descending, and
keep the first num_results rows. No rounding is applied. -/
def get_top_artists_by_sales (num_results : ℕ) (db : DB) : List ArtistRow :=
  (sortLe (fun a b => decide (b.TotalSales ≤ a.TotalSales))
    ((sortLe strLeB (groupKeys artistNameOf (joinFull db))).map fun k =>
      { index := k,
        TotalSales :=
          ((groupRows artistNameOf k (joinFull db)).map
            fun r => r.1.unitPrice * ((r.1.quantity : ℤ) : ℚ)).sum,
        Quantity :=
          ((groupRows artistNameOf k (joinFull db)).map fun r => r.1.quantity).sum,
        Month :=
          (((groupRows artistNameOf k (joinFull db)).map
            fun r => toPeriodM r.2.1.invoiceDate).headD default) })).take num_results

/-- A result row of get_tracks_by_genre, in SELECT order. -/
structure GenreRow where
  Genre : String
  NumTracks : ℕ
deriving DecidableEq, Inhabited

/-- get_tracks_by_genre: join genres to tracks, group by the track
GenreId, count the rows of each group, and order by the count
descending. -/
def get_tracks_by_genre (db : DB) : List GenreRow :=
  sortLe (fun a b => decide (b.NumTracks ≤ a.NumTracks))
    ((groupKeys (fun r => r.2.genreId) (joinGenresTracks db)).map fun k =>
      { Genre :=
          (((groupRows (fun r => r.2.genreId) k (joinGenresTracks db)).map
            fun r => r.1.name).headD default),
        NumTracks := (groupRows (fun r => r.2.genreId) k (joinGenresTracks db)).length })

/-- A result row of get_annual_sales_by_month, in SELECT order. -/
structure AnnualRow where
  Month : String
  Quantity : ℤ
  TotalSales : ℚ
deriving DecidableEq, Inhabited

/-- get_annual_sales_by_month: keep the joined rows whose strftime %Y
text equals the text SQLite derives from the integer year parameter,
group by the %m month text, and aggregate SUM(Quantity) and
ROUND(SUM(UnitPrice * Quantity), 2). -/
def get_annual_sales_by_month (year : ℕ) (db : DB) : List AnnualRow :=
  (groupKeys (fun r => strftimeM r.2.invoiceDate)
    ((joinItemsInvoices db).filter fun r =>
      decide (strftimeY r.2.invoiceDate = natText year))).map fun k =>
    { Month := k,
      Quantity :=
        ((groupRows (fun r => strftimeM r.2.invoiceDate) k
          ((joinItemsInvoices db).filter fun r =>
            decide (strftimeY r.2.invoiceDate = natText year))).map
          fun r => r.1.quantity).sum,
      TotalSales :=
        round2 (((groupRows (fun r => strftimeM r.2.invoiceDate) k
          ((joinItemsInvoices db).filter fun r =>
            decide (strftimeY r.2.invoiceDate = natText year))).map
          fun r => r.1.unitPrice * ((r.1.quantity : ℤ) : ℚ)).sum) }

/-- A result row of get_sales_by_quarter, in SELECT order. -/
structure QuarterRow where
  Quarter : String
  Quantity : ℤ
  TotalSales : ℚ
deriving DecidableEq, Inhabited

/-- get_sales_by_quarter: group the joined rows by the quarter label and
aggregate SUM(Quantity) and ROUND(SUM(UnitPrice * Quantity), 2). -/
def get_sales_by_quarter (db : DB) : List QuarterRow :=
  (groupKeys (fun r => quarterKey r.2.invoiceDate) (joinItemsInvoices db)).map fun k =>
    { Quarter := k,
      Quantity :=
        ((groupRows (fun r => quarterKey r.2.invoiceDate) k (joinItemsInvoices db)).map
          fun r => r.1.quantity).sum,
      TotalSales :=
        round2 (((groupRows (fun r => quarterKey r.2.invoiceDate) k (joinItemsInvoices db)).map
          fun r => r.1.unitPrice * ((r.1.quantity : ℤ) : ℚ)).sum) }

/-- A result row of get_sales_by_year, in SELECT order. -/
structure YearRow where
  Year : String
  Quantity : ℤ
  TotalSales : ℚ
deriving DecidableEq, Inhabited

/-- get_sales_by_year: group the joined rows by the strftime %Y text and
aggregate SUM(Quantity) and ROUND(SUM(UnitPrice * Quantity), 2). -/
def get_sales_by_year (db : DB) : List YearRow :=
  (groupKeys (fun r => strftimeY r.2.invoiceDate) (joinItemsInvoices db)).map fun k =>
    { Year := k,
      Quantity :=
        ((groupRows (fun r => strftimeY r.2.invoiceDate) k (joinItemsInvoices db)).map
          fun r => r.1.quantity).sum,
      TotalSales :=
        round2 (((groupRows (fun r => strftimeY r.2.invoiceDate) k (joinItemsInvoices db)).map
          fun r => r.1.unitPrice * ((r.1.quantity : ℤ) : ℚ)).sum) }

/-- The decimal text of an integer cell value. -/
def intText (n : ℤ) : String :=
  if n < 0 then "-" ++ natText n.natAbs else natText n.natAbs

/-- A textual cell for a rational value; the exact digits a CSV writer
prints are irrelevant to the claims, only that the cell renders the
numeric value and nothing else. -/
def ratText (q : ℚ) : String :=
  if q.den = 1 then intText q.num else intText q.num ++ "/" ++ natText q.den

/-- A textual cell for a period value, rendered YYYY-MM. -/
def periodCell (p : Period) : String := ⟨pad4 p.y ++ '-' :: pad2 p.m⟩

/-- to_csv with index=False on the sales-by-artist result: the header
row lists the data columns only; the artist-name index is not written. -/
def artistCsv (rows : List ArtistRow) : List (List String) :=
  ["TotalSales", "Quantity", "Month"] ::
    rows.map fun r => [ratText r.TotalSales, intText r.Quantity, periodCell r.Month]

/-- to_csv with index=False on the tracks-by-genre result. -/
def genreCsv (rows : List GenreRow) : List (List String) :=
  ["Genre", "NumTracks"] :: rows.map fun r => [r.Genre, natText r.NumTracks]

/-- to_csv with index=False on the annual sales-by-month result. -/
def annualCsv (rows : List AnnualRow) : List (List String) :=
  ["Month", "Quantity", "TotalSales"] ::
    rows.map fun r => [r.Month, intText r.Quantity, ratText r.TotalSales]

/-- to_csv with index=False on the sales-by-quarter result. -/
def quarterCsv (rows : List QuarterRow) : List (List String) :=
  ["Quarter", "Quantity", "TotalSales"] ::
    rows.map fun r => [r.Quarter, intText r.Quantity, ratText r.TotalSales]

/-- to_csv with index=False on the sales-by-year result. -/
def yearCsv (rows : List YearRow) : List (List String) :=
  ["Year", "Quantity", "TotalSales"] ::
    rows.map fun r => [r.Year, intText r.Quantity, ratText r.TotalSales]

/-- Outcome of create_connection: whether an ERROR was logged and, when
the function ends the process through the bare sys.exit call, the exit
status the interpreter reports. A bare sys.exit raises SystemExit with
value None, which the interpreter maps to exit status 0. -/
structure ConnResult where
  errorLogged : Bool
  exited : Option ℕ
deriving DecidableEq, Inhabited

/-- create_connection: when the database file is missing, log an ERROR
and call sys.exit with no argument; when opening fails, the except
branch does the same; otherwise return the open connection. -/
def create_connection (dbExists openFails : Bool) : ConnResult :=
  if !dbExists then { errorLogged := true, exited := some 0 }
  else if openFails then { errorLogged := true, exited := some 0 }
  else { errorLogged := false, exited := none }

/-- Run the with-block body: a fixed sequence of extract and save
actions, each of which may raise. Returns how many actions completed
and whether one raised, which aborts the rest. -/
def runSteps : List Bool → ℕ × Bool
  | [] => (0, false)
  | r :: rs =>
      if r then (0, true)
      else
        let done := runSteps rs
        (done.1 + 1, done.2)

/-- The observable outcome of one run of main. -/
structure MainOutcome where
  errorLogged : Bool
  exitCode : Option ℕ
  stepsCompleted : ℕ
  closes : ℕ
  unhandledException : Bool
deriving DecidableEq, Inhabited

/-- main: load config, configure logging, create the connection, run
the extract and save actions inside a with-conn block, then call
conn.close(). The sqlite3 connection context manager only commits or
rolls back the transaction; it does not close the connection, and when
an action raises, the exception propagates past the conn.close() call,
so no close happens on that path. -/
def mainModel (dbExists openFails : Bool) (raises : List Bool) : MainOutcome :=
  let c := create_connection dbExists openFails
  match c.exited with
  | some code =>
      { errorLogged := c.errorLogged, exitCode := some code,
        stepsCompleted := 0, closes := 0, unhandledException := false }
  | none =>
      let done := runSteps raises
      if done.2 then
        { errorLogged := c.errorLogged, exitCode := none,
          stepsCompleted := done.1, closes := 0, unhandledException := true }
      else
        { errorLogged := c.errorLogged, exitCode := none,
          stepsCompleted := done.1, closes := 1, unhandledException := false }

/-- The annual report as the spec words the restriction: keep exactly
the joined rows whose invoice year equals the caller-supplied year,
then group by the month text and aggregate as the query does. -/
def annualSalesSpec (year : ℕ) (db : DB) : List AnnualRow :=
  (groupKeys (fun r => strftimeM r.2.invoiceDate)
    ((joinItemsInvoices db).filter fun r =>
      decide (r.2.invoiceDate.year = year))).map fun k =>
    { Month := k,
      Quantity :=
        ((groupRows (fun r => strftimeM r.2.invoiceDate) k
          ((joinItemsInvoices db).filter fun r =>
            decide (r.2.invoiceDate.year = year))).map
          fun r => r.1.quantity).sum,
      TotalSales :=
        round2 (((groupRows (fun r => strftimeM r.2.invoiceDate) k
          ((joinItemsInvoices db).filter fun r =>
            decide (r.2.invoiceDate.year = year))).map
          fun r => r.1.unitPrice * ((r.1.quantity : ℤ) : ℚ)).sum) }

/-- get_sales_by_month_sql with the ROUND around the quantity sum
omitted; used to state that this ROUND never changes a value. -/
def salesByMonthSqlRawQuantity (db : DB) : List MonthSqlRow :=
  (groupKeys (fun r => sqlMonthKey r.2.invoiceDate) (joinItemsInvoices db)).map fun k =>
    { Quantity :=
        (((groupRows (fun r => sqlMonthKey r.2.invoiceDate) k (joinItemsInvoices db)).map
          fun r => ((r.1.quantity : ℤ) : ℚ)).sum),
      TotalSales :=
        round2 (((groupRows (fun r => sqlMonthKey r.2.invoiceDate) k (joinItemsInvoices db)).map
          fun r => r.1.unitPrice * ((r.1.quantity : ℤ) : ℚ)).sum),
      Month := k }

/-- Modelled from the spec wording of the tracks-by-genre report: the
number of line items related to a genre through the genre to track
relation. -/
def genreLineItemCount (db : DB) (gid : ℕ) : ℕ :=
  (db.invoice_items.filter fun ii =>
    db.tracks.any fun t => decide (t.trackId = ii.trackId) && decide (t.genreId = gid)).length

/-- Fixture of the spec: four artists whose total sales are 500, 300,
200 and 100. -/
def topFixture : DB :=
  { invoices := [⟨1, ⟨2012, 1, 5⟩⟩],
    invoice_items :=
      [⟨1, 1, 500, 1⟩, ⟨1, 2, 300, 1⟩, ⟨1, 3, 200, 1⟩, ⟨1, 4, 100, 1⟩],
    tracks := [⟨1, 1, 1⟩, ⟨2, 2, 1⟩, ⟨3, 3, 1⟩, ⟨4, 4, 1⟩],
    albums := [⟨1, 1⟩, ⟨2, 2⟩, ⟨3, 3⟩, ⟨4, 4⟩],
    artists := [⟨1, "A"⟩, ⟨2, "B"⟩, ⟨3, "C"⟩, ⟨4, "D"⟩],
    genres := [⟨1, "Rock"⟩] }

/-- Two artists with distinct totals; the top-1 truncation drops one of
the two line items from the aggregate. -/
def twoArtistDb : DB :=
  { invoices := [⟨1, ⟨2012, 1, 5⟩⟩],
    invoice_items := [⟨1, 1, 2, 1⟩, ⟨1, 2, 1, 1⟩],
    tracks := [⟨1, 1, 1⟩, ⟨2, 2, 1⟩],
    albums := [⟨1, 1⟩, ⟨2, 2⟩],
    artists := [⟨1, "X"⟩, ⟨2, "Y"⟩],
    genres := [⟨1, "Rock"⟩] }

/-- One line item whose unit price has three decimal places. -/
def milliPriceDb : DB :=
  { invoices := [⟨1, ⟨2012, 1, 5⟩⟩],
    invoice_items := [⟨1, 1, 1 / 1000, 1⟩],
    tracks := [⟨1, 1, 1⟩],
    albums := [⟨1, 1⟩],
    artists := [⟨1, "Alice"⟩],
    genres := [⟨1, "Rock"⟩] }

/-- One artist named Alice with a single line item priced 0.999. -/
def aliceDb : DB :=
  { invoices := [⟨1, ⟨2012, 1, 5⟩⟩],
    invoice_items := [⟨1, 1, 999 / 1000, 1⟩],
    tracks := [⟨1, 1, 1⟩],
    albums := [⟨1, 1⟩],
    artists := [⟨1, "Alice"⟩],
    genres := [⟨1, "Rock"⟩] }

/-- One genre with a single track that occurs on two line items. -/
def oneGenreDb : DB :=
  { invoices := [⟨1, ⟨2012, 1, 5⟩⟩],
    invoice_items := [⟨1, 1, 1, 1⟩, ⟨1, 1, 1, 1⟩],
    tracks := [⟨1, 1, 1⟩],
    albums := [⟨1, 1⟩],
    artists := [⟨1, "X"⟩],
    genres := [⟨1, "Rock"⟩] }

/-- Fixture of the spec for the annual report: one line item dated in
2011 and one dated in 2012. -/
def annualFixture : DB :=
  { invoices := [⟨1, ⟨2011, 6, 15⟩⟩, ⟨2, ⟨2012, 6, 15⟩⟩],
    invoice_items := [⟨1, 1, 1, 1⟩, ⟨2, 1, 3 / 2, 2⟩],
    tracks := [⟨1, 1, 1⟩],
    albums := [⟨1, 1⟩],
    artists := [⟨1, "X"⟩],
    genres := [⟨1, "Rock"⟩] }

/-- The row that get_sales_by_month_sql builds for one month key. -/
def monthSqlRowOf (db : DB) (k : String) : MonthSqlRow :=
  { Quantity :=
      round2 (((groupRows (fun r => sqlMonthKey r.2.invoiceDate) k (joinItemsInvoices db)).map
        fun r => ((r.1.quantity : ℤ) : ℚ)).sum),
    TotalSales :=
      round2 (((groupRows (fun r => sqlMonthKey r.2.invoiceDate) k (joinItemsInvoices db)).map
        fun r => r.1.unitPrice * ((r.1.quantity : ℤ) : ℚ)).sum),
    Month := k }

/-- The row that get_sales_by_month_pd builds for one period key. -/
def monthPdRowOf (db : DB) (p : Period) : MonthPdRow :=
  { index := p,
    TotalSales :=
      (((groupRows (fun r => toPeriodM r.2.invoiceDate) p (joinItemsInvoices db)).map
        fun r => r.1.unitPrice * ((r.1.quantity : ℤ) : ℚ)).sum),
    Quantity :=
      (((groupRows (fun r => toPeriodM r.2.invoiceDate) p (joinItemsInvoices db)).map
        fun r => r.1.quantity).sum),
    Month :=
      (((groupRows (fun r => toPeriodM r.2.invoiceDate) p (joinItemsInvoices db)).map
        fun r => toPeriodM r.2.invoiceDate).headD default) }

lemma mem_insertLe {α : Type} (le : α → α → Bool) (a x : α) (l : List α) :
    x ∈ insertLe le a l ↔ x = a ∨ x ∈ l := by
  induction l with
  | nil => simp [insertLe]
  | cons b bs ih =>
    simp only [insertLe]
    cases hab : le a b
    · simp only [Bool.false_eq_true, if_false, List.mem_cons, ih]
      tauto
    · simp only [if_true, List.mem_cons]

lemma perm_insertLe {α : Type} (le : α → α → Bool) (a : α) (l : List α) :
    (insertLe le a l).Perm (a :: l) := by
  induction l with
  | nil => simp [insertLe]
  | cons b bs ih =>
    simp only [insertLe]
    cases hab : le a b
    · simp only [Bool.false_eq_true, if_false]
      exact ((ih.cons b).trans (List.Perm.swap a b bs)).symm.symm
    · simp

lemma perm_sortLe {α : Type} (le : α → α → Bool) (l : List α) :
    (sortLe le l).Perm l := by
  induction l with
  | nil => simp [sortLe]
  | cons a as ih =>
    simp only [sortLe]
    exact (perm_insertLe le a (sortLe le as)).trans (ih.cons a)

lemma mem_sortLe {α : Type} (le : α → α → Bool) (x : α) (l : List α) :
    x ∈ sortLe le l ↔ x ∈ l :=
  (perm_sortLe le l).mem_iff

lemma pairwise_insertLe {α : Type} (le : α → α → Bool)
    (htr : ∀ x y z, le x y = true → le y z = true → le x z = true)
    (hto : ∀ x y, le x y = true ∨ le y x = true) (a : α) (l : List α)
    (h : l.Pairwise (fun x y => le x y = true)) :
    (insertLe le a l).Pairwise (fun x y => le x y = true) := by
  induction l with
  | nil => simp [insertLe]
  | cons b bs ih =>
    rcases List.pairwise_cons.mp h with ⟨hb, hbs⟩
    simp only [insertLe]
    cases hab : le a b
    · have hba : le b a = true := by
        rcases hto a b with h1 | h1
        · rw [h1] at hab; cases hab
        · exact h1
      simp only [Bool.false_eq_true, if_false]
      refine List.pairwise_cons.mpr ⟨?_, ih hbs⟩
      intro x hx
      rcases (mem_insertLe le a x bs).mp hx with rfl | hx
      · exact hba
      · exact hb x hx
    · simp only [if_true]
      refine List.pairwise_cons.mpr ⟨?_, h⟩
      intro x hx
      rcases List.mem_cons.mp hx with rfl | hx
      · exact hab
      · exact htr a b x hab (hb x hx)

lemma pairwise_sortLe {α : Type} (le : α → α → Bool)
    (htr : ∀ x y z, le x y = true → le y z = true → le x z = true)
    (hto : ∀ x y, le x y = true ∨ le y x = true) (l : List α) :
    (sortLe le l).Pairwise (fun x y => le x y = true) := by
  induction l with
  | nil => simp [sortLe]
  | cons a as ih =>
    simp only [sortLe]
    exact pairwise_insertLe le htr hto a (sortLe le as) ih

lemma sum_map_add {κ M : Type} [AddCommMonoid M] (f g : κ → M) (ks : List κ) :
    (ks.map fun k => f k + g k).sum = (ks.map f).sum + (ks.map g).sum := by
  induction ks with
  | nil => simp
  | cons k t ih =>
    simp only [List.map_cons, List.sum_cons, ih]
    abel

lemma sum_map_ite_not_mem {κ M : Type} [DecidableEq κ] [AddCommMonoid M]
    (c : κ) (v : M) (ks : List κ) (h : c ∉ ks) :
    (ks.map fun k => if c = k then v else 0).sum = 0 := by
  induction ks with
  | nil => simp
  | cons k t ih =>
    simp only [List.mem_cons, not_or] at h
    simp [if_neg h.1, ih h.2]

lemma sum_map_ite_nodup {κ M : Type} [DecidableEq κ] [AddCommMonoid M]
    (c : κ) (v : M) (ks : List κ) (hnd : ks.Nodup) (hc : c ∈ ks) :
    (ks.map fun k => if c = k then v else 0).sum = v := by
  induction ks with
  | nil => cases hc
  | cons k t ih =>
    rcases List.nodup_cons.mp hnd with ⟨hk, ht⟩
    rcases List.mem_cons.mp hc with rfl | hc
    · simp [sum_map_ite_not_mem c v t hk]
    · have hck : ¬ c = k := fun h => hk (h ▸ hc)
      simp [if_neg hck, ih ht hc]

lemma sum_filter_key {α κ M : Type} [DecidableEq κ] [AddCommMonoid M]
    (key : α → κ) (w : α → M) (ks : List κ) (hnd : ks.Nodup) (l : List α)
    (hcov : ∀ a ∈ l, key a ∈ ks) :
    (ks.map fun k => ((l.filter fun a => decide (key a = k)).map w).sum).sum
      = (l.map w).sum := by
  induction l with
  | nil => simp
  | cons x t ih =>
    have hx : key x ∈ ks := hcov x (List.mem_cons_self x t)
    have ht : ∀ a ∈ t, key a ∈ ks := fun a ha => hcov a (List.mem_cons_of_mem x ha)
    have step : ∀ k ∈ ks,
        ((List.filter (fun a => decide (key a = k)) (x :: t)).map w).sum
          = (if key x = k then w x else 0)
            + ((t.filter fun a => decide (key a = k)).map w).sum := by
      intro k _
      by_cases hk : key x = k
      · simp [List.filter_cons, hk]
      · simp [List.filter_cons, hk]
    rw [List.map_congr_left step, sum_map_add, sum_map_ite_nodup (key x) (w x) ks hnd hx, ih ht]
    simp

lemma nodup_groupKeys {α κ : Type} [DecidableEq κ] (key : α → κ) (l : List α) :
    (groupKeys key l).Nodup :=
  List.nodup_dedup _

lemma mem_groupKeys {α κ : Type} [DecidableEq κ] (key : α → κ) (k : κ) (l : List α) :
    k ∈ groupKeys key l ↔ ∃ a ∈ l, key a = k := by
  simp [groupKeys, List.mem_dedup, List.mem_map]

lemma sum_over_groupKeys {α κ M : Type} [DecidableEq κ] [AddCommMonoid M]
    (key : α → κ) (w : α → M) (l : List α) :
    ((groupKeys key l).map fun k => ((groupRows key k l).map w).sum).sum = (l.map w).sum :=
  sum_filter_key key w (groupKeys key l) (nodup_groupKeys key l) l
    (fun a ha => (mem_groupKeys key (key a) l).mpr ⟨a, ha, rfl⟩)

lemma sum_over_sorted_groupKeys {α κ M : Type} [DecidableEq κ] [AddCommMonoid M]
    (le : κ → κ → Bool) (key : α → κ) (w : α → M) (l : List α) :
    ((sortLe le (groupKeys key l)).map fun k => ((groupRows key k l).map w).sum).sum
      = (l.map w).sum := by
  have hperm := (perm_sortLe le (groupKeys key l)).map
    (fun k => ((groupRows key k l).map w).sum)
  rw [hperm.sum_eq, sum_over_groupKeys]

lemma sum_flatMap {α M : Type} [AddCommMonoid M] (g : α → List M) (l : List α) :
    (l.flatMap g).sum = (l.map fun a => (g a).sum).sum := by
  induction l with
  | nil => rfl
  | cons a t ih => simp [List.flatMap_cons, List.sum_append, ih]

lemma sum_map_const {α M : Type} [AddCommMonoid M] (l : List α) (c : M) :
    (l.map fun _ => c).sum = l.length • c := by
  induction l with
  | nil => simp
  | cons a t ih => simp [ih, succ_nsmul, add_comm]

lemma length_filter_eq_one {α κ : Type} [DecidableEq κ] (f : α → κ) (c : κ) (l : List α)
    (hnd : (l.map f).Nodup) (hex : ∃ x ∈ l, f x = c) :
    (l.filter fun x => decide (f x = c)).length = 1 := by
  induction l with
  | nil => rcases hex with ⟨x, hx, _⟩; cases hx
  | cons y t ih =>
    rw [List.map_cons, List.nodup_cons] at hnd
    by_cases hy : f y = c
    · have hnone : ∀ x ∈ t, ¬ f x = c := by
        intro x hx hc
        exact hnd.1 (hy ▸ hc ▸ List.mem_map_of_mem f hx)
      have hnil : t.filter (fun x => decide (f x = c)) = [] :=
        List.filter_eq_nil_iff.mpr (by intro a ha; simpa using hnone a ha)
      simp [List.filter_cons, hy, hnil]
    · rcases hex with ⟨x, hx, hxc⟩
      rcases List.mem_cons.mp hx with rfl | hx
      · exact absurd hxc hy
      · simp [List.filter_cons, hy, ih hnd.2 ⟨x, hx, hxc⟩]

lemma sum_map_fst_joinItemsInvoices {M : Type} [AddCommMonoid M] (db : DB)
    (hpk : (db.invoices.map Invoice.invoiceId).Nodup)
    (hfk : ∀ ii ∈ db.invoice_items, ∃ i ∈ db.invoices, i.invoiceId = ii.invoiceId)
    (w : InvoiceItem → M) :
    ((joinItemsInvoices db).map fun r => w r.1).sum = (db.invoice_items.map w).sum := by
  unfold joinItemsInvoices
  rw [List.map_flatMap, sum_flatMap]
  apply congrArg List.sum
  apply List.map_congr_left
  intro ii hii
  rw [List.map_map]
  have hconst :
      ((db.invoices.filter fun i => decide (i.invoiceId = ii.invoiceId)).map
        ((fun r : InvoiceItem × Invoice => w r.1) ∘ fun i => (ii, i)))
        = ((db.invoices.filter fun i => decide (i.invoiceId = ii.invoiceId)).map
            fun _ => w ii) := rfl
  rw [hconst, sum_map_const,
    length_filter_eq_one Invoice.invoiceId ii.invoiceId db.invoices hpk (hfk ii hii),
    one_nsmul]

lemma digitChar_fin : ∀ x y : Fin 10,
    Char.ofNat (48 + x.val % 10) = Char.ofNat (48 + y.val % 10) → x = y := by decide

lemma digitChar_inj10 (a b : ℕ) (h : digitChar a = digitChar b) : a % 10 = b % 10 := by
  have ha : a % 10 < 10 := by omega
  have hb : b % 10 < 10 := by omega
  have e : ∀ x : ℕ, x % 10 % 10 = x % 10 := fun x => by omega
  have h' : Char.ofNat (48 + (⟨a % 10, ha⟩ : Fin 10).val % 10)
      = Char.ofNat (48 + (⟨b % 10, hb⟩ : Fin 10).val % 10) := by
    simpa [digitChar, e] using h
  have h2 := digitChar_fin ⟨a % 10, ha⟩ ⟨b % 10, hb⟩ h'
  exact congrArg Fin.val h2

lemma pad2_inj {a b : ℕ} (ha : a ≤ 99) (hb : b ≤ 99) (h : pad2 a = pad2 b) : a = b := by
  simp only [pad2, List.cons.injEq, and_true] at h
  obtain ⟨h1, h0⟩ := h
  have e1 := digitChar_inj10 _ _ h1
  have e0 := digitChar_inj10 _ _ h0
  omega

lemma pad4_inj {a b : ℕ} (ha : a ≤ 9999) (hb : b ≤ 9999) (h : pad4 a = pad4 b) : a = b := by
  simp only [pad4, List.cons.injEq, and_true] at h
  obtain ⟨h3, h2, h1, h0⟩ := h
  have e3 := digitChar_inj10 _ _ h3
  have e2 := digitChar_inj10 _ _ h2
  have e1 := digitChar_inj10 _ _ h1
  have e0 := digitChar_inj10 _ _ h0
  omega

lemma natDigitsAux_eq (fuel n : ℕ) (h : n < fuel) :
    natDigitsAux fuel n =
      if n < 10 then [digitChar n]
      else natDigitsAux (fuel - 1) (n / 10) ++ [digitChar n] := by
  cases fuel with
  | zero => omega
  | succ f => rfl

lemma natText_data_eq_pad4 (n : ℕ) (h1 : 1000 ≤ n) (h2 : n ≤ 9999) :
    (natText n).data = pad4 n := by
  show natDigitsAux (n + 1) n = pad4 n
  rw [natDigitsAux_eq _ _ (by omega), if_neg (by omega)]
  rw [natDigitsAux_eq _ _ (by omega), if_neg (by omega)]
  rw [natDigitsAux_eq _ _ (by omega), if_neg (by omega)]
  rw [natDigitsAux_eq _ _ (by omega), if_pos (by omega)]
  have e1 : n / 10 / 10 / 10 = n / 1000 := by omega
  have e2 : n / 10 / 10 = n / 100 := by omega
  have e3 : n / 100 / 10 = n / 1000 := by omega
  simp [pad4, e1, e2, e3]

lemma strftimeY_eq_natText_iff (d : Date) (year : ℕ) (hd : d.year ≤ 9999)
    (hy1 : 1000 ≤ year) (hy2 : year ≤ 9999) :
    strftimeY d = natText year ↔ d.year = year := by
  constructor
  · intro h
    have hdata : pad4 d.year = (natText year).data := congrArg String.data h
    rw [natText_data_eq_pad4 year hy1 hy2] at hdata
    exact pad4_inj hd hy2 hdata
  · intro h
    apply String.ext
    rw [natText_data_eq_pad4 year hy1 hy2]
    show pad4 d.year = pad4 year
    rw [h]

lemma periodText_inj {p q : Period} (hpy : p.y ≤ 9999) (hpm : p.m ≤ 12)
    (hqy : q.y ≤ 9999) (hqm : q.m ≤ 12) (h : periodText p = periodText q) : p = q := by
  have hdata : pad4 p.y ++ '-' :: pad2 p.m = pad4 q.y ++ '-' :: pad2 q.m :=
    congrArg String.data h
  have hlen : (pad4 p.y).length = (pad4 q.y).length := by simp [pad4]
  obtain ⟨h4, hrest⟩ := List.append_inj hdata hlen
  have h2 : pad2 p.m = pad2 q.m := by
    simpa using hrest
  have hy := pad4_inj hpy hqy h4
  have hm : p.m = q.m := pad2_inj (by omega) (by omega) h2
  obtain ⟨py, pm⟩ := p
  obtain ⟨qy, qm⟩ := q
  simp only [Period.mk.injEq]
  exact ⟨hy, hm⟩

lemma round2_intCast (n : ℤ) : round2 ((n : ℤ) : ℚ) = n := by
  unfold round2
  have h : ((n : ℚ)) * 100 = ((n * 100 : ℤ) : ℚ) := by push_cast; ring
  rw [h, round_intCast]
  push_cast
  rw [mul_div_assoc]
  norm_num

lemma round2_round2 (q : ℚ) : round2 (round2 q) = round2 q := by
  unfold round2
  rw [div_mul_cancel₀ _ (by norm_num : (100 : ℚ) ≠ 0), round_intCast]

lemma runSteps_no_raise (l : List Bool) (h : ∀ b ∈ l, b = false) :
    (runSteps l).2 = false := by
  induction l with
  | nil => rfl
  | cons b bs ih =>
    have hb := h b (List.mem_cons_self b bs)
    subst hb
    simp only [runSteps, Bool.false_eq_true, if_false]
    exact ih fun x hx => h x (List.mem_cons_of_mem _ hx)

/-- C4 (amended): the connection is closed exactly once on every run in
which no extract or save action raises; on a run where one raises, the
exception propagates out of the with-block, which only ends the
transaction, and the conn.close() call after the block is skipped, so
the connection is not closed at all on that exit path. -/
theorem C4_amended (raises : List Bool) (h : ∀ b ∈ raises, b = false) :
    (mainModel true false raises).closes = 1
      ∧ (mainModel true false raises).unhandledException = false := by
  have hr := runSteps_no_raise raises h
  unfold mainModel create_connection
  simp [hr]

theorem C4_witness :
    (∀ b ∈ [false, false, false, false, false, false, false, false, false, false, false, false],
        b = false)
      ∧ ((mainModel true false
            [false, false, false, false, false, false, false, false, false, false, false, false]).closes = 1
        ∧ (mainModel true false
            [false, false, false, false, false, false, false, false, false, false, false, false]).unhandledException
            = false) :=
  ⟨by decide, C4_amended _ (by decide)⟩

/-- C4 counterexample: a run in which the second action raises leaves
the connection unclosed, against the claim that every exit path closes
it exactly once. -/
theorem C4_cex :
    (mainModel true false [false, true]).unhandledException = true
      ∧ ¬ (mainModel true false [false, true]).closes = 1 := by decide

/-- C9 (amended): with a missing database file, create_connection logs
an ERROR and the process terminates before any query executes, but the
bare sys.exit() call reports exit status 0, not a non-zero status. -/
theorem C9_amended (openFails : Bool) (raises : List Bool) :
    (mainModel false openFails raises).errorLogged = true
      ∧ (mainModel false openFails raises).stepsCompleted = 0
      ∧ (mainModel false openFails raises).exitCode = some 0 :=
  ⟨rfl, rfl, rfl⟩

/-- C9 counterexample: the early termination carries exit status 0, so
the claimed non-zero process exit status is false. -/
theorem C9_cex :
    (mainModel false false []).exitCode = some 0
      ∧ ¬ ∃ c, (mainModel false false []).exitCode = some c ∧ c ≠ 0 := by
  refine ⟨rfl, ?_⟩
  rintro ⟨c, hc, hne⟩
  apply hne
  have h0 : (mainModel false false []).exitCode = some 0 := rfl
  rw [h0] at hc
  exact (Option.some_inj.mp hc).symm

lemma quantity_sum_cast (grp : List (InvoiceItem × Invoice)) :
    (grp.map fun r => ((r.1.quantity : ℤ) : ℚ)).sum
      = (((grp.map fun r => r.1.quantity).sum : ℤ) : ℚ) := by
  rw [Int.cast_list_sum, List.map_map]
  rfl

lemma monthSql_totalSales_rounded (db : DB) (r : MonthSqlRow)
    (hr : r ∈ get_sales_by_month_sql db) : round2 r.TotalSales = r.TotalSales := by
  unfold get_sales_by_month_sql at hr
  rcases List.mem_map.mp hr with ⟨k, -, rfl⟩
  exact round2_round2 _

lemma annual_totalSales_rounded (year : ℕ) (db : DB) (r : AnnualRow)
    (hr : r ∈ get_annual_sales_by_month year db) : round2 r.TotalSales = r.TotalSales := by
  unfold get_annual_sales_by_month at hr
  rcases List.mem_map.mp hr with ⟨k, -, rfl⟩
  exact round2_round2 _

lemma quarter_totalSales_rounded (db : DB) (r : QuarterRow)
    (hr : r ∈ get_sales_by_quarter db) : round2 r.TotalSales = r.TotalSales := by
  unfold get_sales_by_quarter at hr
  rcases List.mem_map.mp hr with ⟨k, -, rfl⟩
  exact round2_round2 _

lemma year_totalSales_rounded (db : DB) (r : YearRow)
    (hr : r ∈ get_sales_by_year db) : round2 r.TotalSales = r.TotalSales := by
  unfold get_sales_by_year at hr
  rcases List.mem_map.mp hr with ⟨k, -, rfl⟩
  exact round2_round2 _

/-- C6 (amended): the four engine-side reports produce TotalSales
values that are fixed points of rounding to two decimals, and the one
ROUND applied to a quantity sum (in get_sales_by_month_sql) never
changes the value, because quantity sums are integers. The host-side
reports (get_sales_by_month_pd and the active get_top_artists_by_sales)
apply no rounding to TotalSales at all; see the counterexample. -/
theorem C6_amended (db : DB) (year : ℕ) :
    get_sales_by_month_sql db = salesByMonthSqlRawQuantity db
      ∧ ((get_sales_by_month_sql db).map fun r => round2 r.TotalSales)
          = ((get_sales_by_month_sql db).map fun r => r.TotalSales)
      ∧ ((get_annual_sales_by_month year db).map fun r => round2 r.TotalSales)
          = ((get_annual_sales_by_month year db).map fun r => r.TotalSales)
      ∧ ((get_sales_by_quarter db).map fun r => round2 r.TotalSales)
          = ((get_sales_by_quarter db).map fun r => r.TotalSales)
      ∧ ((get_sales_by_year db).map fun r => round2 r.TotalSales)
          = ((get_sales_by_year db).map fun r => r.TotalSales) := by
  refine ⟨?_, ?_, ?_, ?_, ?_⟩
  · unfold get_sales_by_month_sql salesByMonthSqlRawQuantity
    apply List.map_congr_left
    intro k _
    rw [quantity_sum_cast, round2_intCast]
  · exact List.map_congr_left fun r hr => monthSql_totalSales_rounded db r hr
  · exact List.map_congr_left fun r hr => annual_totalSales_rounded year db r hr
  · exact List.map_congr_left fun r hr => quarter_totalSales_rounded db r hr
  · exact List.map_congr_left fun r hr => year_totalSales_rounded db r hr

unseal Rat.add Rat.mul Rat.inv Rat.sub in
/-- C6 counterexample: the active top-artists report leaves a
three-decimal TotalSales unrounded, so it is not rounded to two decimal
places as claimed. -/
theorem C6_cex :
    ((get_top_artists_by_sales 10 aliceDb).map fun r => r.TotalSales) = [999 / 1000]
      ∧ ¬ round2 (999 / 1000) = (999 / 1000 : ℚ) := by decide

lemma map_const_replicate {β γ : Type} (rows : List β) (n : γ) :
    (rows.map fun _ => n) = List.replicate rows.length n := by
  induction rows with
  | nil => rfl
  | cons a t ih => simp [List.replicate_succ, ih]

lemma csv_widths {β : Type} (hdr : List String) (cells : β → List String) (rows : List β)
    (n : ℕ) (hh : hdr.length = n) (hc : ∀ r, (cells r).length = n) :
    ((hdr :: rows.map cells).map List.length) = List.replicate (rows.length + 1) n := by
  simp only [List.map_cons, List.map_map, List.replicate_succ, hh]
  congr 1
  have h1 : rows.map (List.length ∘ cells) = rows.map fun _ => n :=
    List.map_congr_left fun r _ => hc r
  rw [h1, map_const_replicate]

/-- C8 (amended): every CSV artifact begins with a header row of the
data-column names, carries no index column, and each data row has the
same width as the header. For the genre, annual, quarter and year
reports the header includes the grouping key and the numeric
aggregates; for the sales-by-artist report the grouping key (the artist
name) lives in the dropped index, so its CSV columns are TotalSales,
Quantity and Month, with no artist-name column; see the
counterexample. -/
theorem C8_amended (db : DB) (N year : ℕ) :
    (artistCsv (get_top_artists_by_sales N db)).head?
          = some ["TotalSales", "Quantity", "Month"]
      ∧ (artistCsv (get_top_artists_by_sales N db)).map List.length
          = List.replicate ((get_top_artists_by_sales N db).length + 1) 3
      ∧ (genreCsv (get_tracks_by_genre db)).head? = some ["Genre", "NumTracks"]
      ∧ (genreCsv (get_tracks_by_genre db)).map List.length
          = List.replicate ((get_tracks_by_genre db).length + 1) 2
      ∧ (annualCsv (get_annual_sales_by_month year db)).head?
          = some ["Month", "Quantity", "TotalSales"]
      ∧ (annualCsv (get_annual_sales_by_month year db)).map List.length
          = List.replicate ((get_annual_sales_by_month year db).length + 1) 3
      ∧ (quarterCsv (get_sales_by_quarter db)).head?
          = some ["Quarter", "Quantity", "TotalSales"]
      ∧ (quarterCsv (get_sales_by_quarter db)).map List.length
          = List.replicate ((get_sales_by_quarter db).length + 1) 3
      ∧ (yearCsv (get_sales_by_year db)).head?
          = some ["Year", "Quantity", "TotalSales"]
      ∧ (yearCsv (get_sales_by_year db)).map List.length
          = List.replicate ((get_sales_by_year db).length + 1) 3 :=
  ⟨rfl, csv_widths _ _ _ 3 rfl fun _ => rfl,
    rfl, csv_widths _ _ _ 2 rfl fun _ => rfl,
    rfl, csv_widths _ _ _ 3 rfl fun _ => rfl,
    rfl, csv_widths _ _ _ 3 rfl fun _ => rfl,
    rfl, csv_widths _ _ _ 3 rfl fun _ => rfl⟩

unseal Rat.add Rat.mul Rat.inv Rat.sub in
/-- C8 counterexample: on a database whose only artist is named Alice,
the written sales-by-artist CSV has columns TotalSales, Quantity and
Month, and the name Alice appears in no cell, so the artifact contains
no artist-name column. -/
theorem C8_cex :
    artistCsv (get_top_artists_by_sales 10 aliceDb)
        = [["TotalSales", "Quantity", "Month"], ["999/1000", "1", "2012-01"]]
      ∧ ¬ ∃ row ∈ artistCsv (get_top_artists_by_sales 10 aliceDb), "Alice" ∈ row := by
  decide

/-- C1 (amended): for the full-dataset groupings (sales by month in
both strategies, sales by quarter, sales by year) the per-group
Quantity values sum to the Quantity total over all line items, given
the primary-key and foreign-key integrity of the invoices relation.
The claim fails for get_top_artists_by_sales, whose top-N truncation
(and artist joins) can drop line items; see the counterexample. It also
does not describe get_annual_sales_by_month, which deliberately
restricts to one year. -/
theorem C1_amended (db : DB)
    (hpk : (db.invoices.map Invoice.invoiceId).Nodup)
    (hfk : ∀ ii ∈ db.invoice_items, ∃ i ∈ db.invoices, i.invoiceId = ii.invoiceId) :
    ((get_sales_by_month_sql db).map fun r => r.Quantity).sum
        = (((db.invoice_items.map fun ii => ii.quantity).sum : ℤ) : ℚ)
      ∧ ((get_sales_by_month_pd db).map fun r => r.Quantity).sum
          = (db.invoice_items.map fun ii => ii.quantity).sum
      ∧ ((get_sales_by_quarter db).map fun r => r.Quantity).sum
          = (db.invoice_items.map fun ii => ii.quantity).sum
      ∧ ((get_sales_by_year db).map fun r => r.Quantity).sum
          = (db.invoice_items.map fun ii => ii.quantity).sum := by
  refine ⟨?_, ?_, ?_, ?_⟩
  · have h1 : ((get_sales_by_month_sql db).map fun r => r.Quantity)
        = ((groupKeys (fun r => sqlMonthKey r.2.invoiceDate) (joinItemsInvoices db)).map
            fun k => round2 (((groupRows (fun r => sqlMonthKey r.2.invoiceDate) k
              (joinItemsInvoices db)).map fun r => ((r.1.quantity : ℤ) : ℚ)).sum)) := by
      unfold get_sales_by_month_sql
      rw [List.map_map]
      rfl
    have h2 : ((groupKeys (fun r => sqlMonthKey r.2.invoiceDate) (joinItemsInvoices db)).map
          fun k => round2 (((groupRows (fun r => sqlMonthKey r.2.invoiceDate) k
            (joinItemsInvoices db)).map fun r => ((r.1.quantity : ℤ) : ℚ)).sum))
        = ((groupKeys (fun r => sqlMonthKey r.2.invoiceDate) (joinItemsInvoices db)).map
            fun k => (((groupRows (fun r => sqlMonthKey r.2.invoiceDate) k
              (joinItemsInvoices db)).map fun r => ((r.1.quantity : ℤ) : ℚ)).sum)) := by
      apply List.map_congr_left
      intro k _
      rw [quantity_sum_cast, round2_intCast]
    rw [h1, h2, sum_over_groupKeys,
      sum_map_fst_joinItemsInvoices db hpk hfk fun ii => ((ii.quantity : ℤ) : ℚ)]
    rw [Int.cast_list_sum, List.map_map]
    rfl
  · have h1 : ((get_sales_by_month_pd db).map fun r => r.Quantity)
        = ((sortLe periodLeB (groupKeys (fun r => toPeriodM r.2.invoiceDate)
            (joinItemsInvoices db))).map
            fun p => (((groupRows (fun r => toPeriodM r.2.invoiceDate) p
              (joinItemsInvoices db)).map fun r => r.1.quantity).sum)) := by
      unfold get_sales_by_month_pd
      rw [List.map_map]
      rfl
    rw [h1, sum_over_sorted_groupKeys,
      sum_map_fst_joinItemsInvoices db hpk hfk fun ii => ii.quantity]
  · have h1 : ((get_sales_by_quarter db).map fun r => r.Quantity)
        = ((groupKeys (fun r => quarterKey r.2.invoiceDate) (joinItemsInvoices db)).map
            fun k => (((groupRows (fun r => quarterKey r.2.invoiceDate) k
              (joinItemsInvoices db)).map fun r => r.1.quantity).sum)) := by
      unfold get_sales_by_quarter
      rw [List.map_map]
      rfl
    rw [h1, sum_over_groupKeys,
      sum_map_fst_joinItemsInvoices db hpk hfk fun ii => ii.quantity]
  · have h1 : ((get_sales_by_year db).map fun r => r.Quantity)
        = ((groupKeys (fun r => strftimeY r.2.invoiceDate) (joinItemsInvoices db)).map
            fun k => (((groupRows (fun r => strftimeY r.2.invoiceDate) k
              (joinItemsInvoices db)).map fun r => r.1.quantity).sum)) := by
      unfold get_sales_by_year
      rw [List.map_map]
      rfl
    rw [h1, sum_over_groupKeys,
      sum_map_fst_joinItemsInvoices db hpk hfk fun ii => ii.quantity]

unseal Rat.add Rat.mul Rat.inv Rat.sub in
theorem C1_witness :
    ((topFixture.invoices.map Invoice.invoiceId).Nodup
        ∧ ∀ ii ∈ topFixture.invoice_items, ∃ i ∈ topFixture.invoices,
            i.invoiceId = ii.invoiceId)
      ∧ (((get_sales_by_month_sql topFixture).map fun r => r.Quantity).sum
            = (((topFixture.invoice_items.map fun ii => ii.quantity).sum : ℤ) : ℚ)
          ∧ ((get_sales_by_month_pd topFixture).map fun r => r.Quantity).sum
              = (topFixture.invoice_items.map fun ii => ii.quantity).sum
          ∧ ((get_sales_by_quarter topFixture).map fun r => r.Quantity).sum
              = (topFixture.invoice_items.map fun ii => ii.quantity).sum
          ∧ ((get_sales_by_year topFixture).map fun r => r.Quantity).sum
              = (topFixture.invoice_items.map fun ii => ii.quantity).sum) :=
  ⟨⟨by decide, by decide⟩, C1_amended topFixture (by decide) (by decide)⟩

unseal Rat.add Rat.mul Rat.inv Rat.sub in
/-- C1 counterexample: with two artists and num_results = 1, the
top-artists report keeps one group and drops the other line item, so
the per-group Quantity values do not sum to the Quantity total over all
line items. -/
theorem C1_cex :
    ¬ ((((get_top_artists_by_sales 1 twoArtistDb).map fun r => r.Quantity).sum : ℤ)
        = (twoArtistDb.invoice_items.map fun ii => ii.quantity).sum) := by decide

lemma headD_map {α β : Type} [Inhabited α] [Inhabited β] (f : α → β) (l : List α)
    (hl : l ≠ []) : (l.map f).headD default = f (l.headD default) := by
  cases l with
  | nil => cases hl rfl
  | cons a t => rfl

lemma headD_mem {α : Type} [Inhabited α] (l : List α) (hl : l ≠ []) : l.headD default ∈ l := by
  cases l with
  | nil => cases hl rfl
  | cons a t => exact List.mem_cons_self a t

lemma mem_joinItemsInvoices (db : DB) {r : InvoiceItem × Invoice}
    (hr : r ∈ joinItemsInvoices db) : r.1 ∈ db.invoice_items ∧ r.2 ∈ db.invoices := by
  unfold joinItemsInvoices at hr
  rcases List.mem_flatMap.mp hr with ⟨ii, hii, hmem⟩
  rcases List.mem_map.mp hmem with ⟨i, hi, rfl⟩
  exact ⟨hii, (List.mem_filter.mp hi).1⟩

lemma mem_joinGenresTracks (db : DB) {x : Genre × Track} (hx : x ∈ joinGenresTracks db) :
    x.1 ∈ db.genres ∧ x.2 ∈ db.tracks ∧ x.2.genreId = x.1.genreId := by
  unfold joinGenresTracks at hx
  rcases List.mem_flatMap.mp hx with ⟨g, hg, hmem⟩
  rcases List.mem_map.mp hmem with ⟨t, ht, rfl⟩
  have := List.mem_filter.mp ht
  exact ⟨hg, this.1, of_decide_eq_true this.2⟩

lemma filter_map_pair (g : Genre) (gid : ℕ) (l : List Track) :
    ((l.map fun t => (g, t)).filter fun r : Genre × Track => decide (r.2.genreId = gid))
      = (l.filter fun t => decide (t.genreId = gid)).map fun t => (g, t) := by
  induction l with
  | nil => rfl
  | cons b t ih =>
    by_cases hb : b.genreId = gid
    · simp [List.filter_cons, hb, ih]
    · simp [List.filter_cons, hb, ih]

lemma count_pairs (gid : ℕ) (ts : List Track) (gs : List Genre) :
    ((gs.flatMap fun g =>
        (ts.filter fun t => decide (t.genreId = g.genreId)).map fun t => (g, t)).filter
          fun r : Genre × Track => decide (r.2.genreId = gid)).length
      = ((gs.filter fun g => decide (g.genreId = gid)).length)
          * (ts.filter fun t => decide (t.genreId = gid)).length := by
  induction gs with
  | nil => simp
  | cons g gs ih =>
    rw [List.flatMap_cons, List.filter_append, List.length_append, ih,
      filter_map_pair g gid, List.length_map, List.filter_filter]
    by_cases hg : g.genreId = gid
    · have hpred : (ts.filter fun a =>
            decide (a.genreId = gid) && decide (a.genreId = g.genreId))
          = ts.filter fun t => decide (t.genreId = gid) := by
        apply List.filter_congr
        intro t _
        rw [hg, Bool.and_self]
      rw [hpred, List.filter_cons, if_pos (by simpa using hg), List.length_cons]
      ring
    · have hpred : (ts.filter fun a =>
            decide (a.genreId = gid) && decide (a.genreId = g.genreId)) = [] := by
        apply List.filter_eq_nil_iff.mpr
        intro t _
        simp only [Bool.and_eq_true, decide_eq_true_eq, not_and]
        intro h1 h2
        exact hg (h2 ▸ h1)
      rw [hpred, List.filter_cons, if_neg (by simpa using hg)]
      simp

lemma nodup_map_inj {α κ : Type} (f : α → κ) (l : List α) (h : (l.map f).Nodup)
    {a b : α} (ha : a ∈ l) (hb : b ∈ l) (hf : f a = f b) : a = b := by
  induction l with
  | nil => cases ha
  | cons x t ih =>
    rw [List.map_cons, List.nodup_cons] at h
    rcases List.mem_cons.mp ha with rfl | ha2
    · rcases List.mem_cons.mp hb with rfl | hb2
      · rfl
      · exfalso
        apply h.1
        rw [hf]
        exact List.mem_map_of_mem f hb2
    · rcases List.mem_cons.mp hb with rfl | hb2
      · exfalso
        apply h.1
        rw [← hf]
        exact List.mem_map_of_mem f ha2
      · exact ih h.2 ha2 hb2

lemma genre_group_spec (db : DB) (gid : ℕ)
    (hgid : gid ∈ groupKeys (fun r => r.2.genreId) (joinGenresTracks db)) :
    ∃ g ∈ db.genres, g.genreId = gid
      ∧ ((groupRows (fun r => r.2.genreId) gid (joinGenresTracks db)).map
          fun r => r.1.name).headD default = g.name
      ∧ ((db.genres.map Genre.genreId).Nodup →
          (groupRows (fun r => r.2.genreId) gid (joinGenresTracks db)).length
            = (db.tracks.filter fun t => decide (t.genreId = gid)).length) := by
  rcases (mem_groupKeys _ _ _).mp hgid with ⟨x, hx, hkey⟩
  have hxg : x ∈ groupRows (fun r => r.2.genreId) gid (joinGenresTracks db) :=
    List.mem_filter.mpr ⟨hx, decide_eq_true hkey⟩
  have hne : groupRows (fun r => r.2.genreId) gid (joinGenresTracks db) ≠ [] :=
    List.ne_nil_of_mem hxg
  have hy : (groupRows (fun r => r.2.genreId) gid (joinGenresTracks db)).headD default
      ∈ groupRows (fun r => r.2.genreId) gid (joinGenresTracks db) := headD_mem _ hne
  have hyj : (groupRows (fun r => r.2.genreId) gid (joinGenresTracks db)).headD default
      ∈ joinGenresTracks db := (List.mem_filter.mp hy).1
  obtain ⟨hg1, -, hg3⟩ := mem_joinGenresTracks db hyj
  have hykey : ((groupRows (fun r => r.2.genreId) gid
      (joinGenresTracks db)).headD default).2.genreId = gid :=
    of_decide_eq_true (List.mem_filter.mp hy).2
  have hgid_eq : ((groupRows (fun r => r.2.genreId) gid
      (joinGenresTracks db)).headD default).1.genreId = gid := by
    rw [← hg3]; exact hykey
  refine ⟨_, hg1, hgid_eq, ?_, ?_⟩
  · rw [headD_map _ _ hne]
  · intro hnd
    unfold groupRows joinGenresTracks
    rw [count_pairs gid db.tracks db.genres,
      length_filter_eq_one Genre.genreId gid db.genres hnd ⟨_, hg1, hgid_eq⟩, one_mul]

/-- C3 (amended): get_tracks_by_genre reports exactly the genres having
at least one track: every returned row pairs a genre name with the
number of TRACKS of that genre, every genre with at least one track
contributes such a row, and the rows are ordered descending by that
count. The claim that it counts line items fails; see the
counterexample. -/
theorem C3_amended (db : DB) (hg : (db.genres.map Genre.genreId).Nodup) :
    (∀ r ∈ get_tracks_by_genre db, ∃ g ∈ db.genres, r.Genre = g.name
        ∧ r.NumTracks = (db.tracks.filter fun t => decide (t.genreId = g.genreId)).length)
      ∧ (∀ g ∈ db.genres, (∃ t ∈ db.tracks, t.genreId = g.genreId) →
          ∃ r ∈ get_tracks_by_genre db, r.Genre = g.name
            ∧ r.NumTracks
                = (db.tracks.filter fun t => decide (t.genreId = g.genreId)).length)
      ∧ (get_tracks_by_genre db).Pairwise fun a b => b.NumTracks ≤ a.NumTracks := by
  refine ⟨?_, ?_, ?_⟩
  · intro r hr
    unfold get_tracks_by_genre at hr
    rw [mem_sortLe] at hr
    rcases List.mem_map.mp hr with ⟨gid, hgid, rfl⟩
    obtain ⟨g, hgmem, hgid_eq, hname, hcount⟩ := genre_group_spec db gid hgid
    refine ⟨g, hgmem, ?_, ?_⟩
    · exact hname
    · show (groupRows (fun r => r.2.genreId) gid (joinGenresTracks db)).length = _
      rw [hgid_eq]
      exact hcount hg
  · intro g' hg' ht
    rcases ht with ⟨t, ht, hgt⟩
    have hx : (g', t) ∈ joinGenresTracks db := by
      unfold joinGenresTracks
      exact List.mem_flatMap.mpr
        ⟨g', hg', List.mem_map.mpr ⟨t, List.mem_filter.mpr ⟨ht, decide_eq_true hgt⟩, rfl⟩⟩
    have hgid : g'.genreId ∈ groupKeys (fun r => r.2.genreId) (joinGenresTracks db) :=
      (mem_groupKeys _ _ _).mpr ⟨(g', t), hx, hgt⟩
    obtain ⟨g, hgmem, hgid_eq, hname, hcount⟩ := genre_group_spec db g'.genreId hgid
    have hgg : g = g' := nodup_map_inj Genre.genreId db.genres hg hgmem hg' hgid_eq
    refine ⟨⟨((groupRows (fun r => r.2.genreId) g'.genreId (joinGenresTracks db)).map
        fun r => r.1.name).headD default,
      (groupRows (fun r => r.2.genreId) g'.genreId (joinGenresTracks db)).length⟩,
      ?_, ?_, ?_⟩
    · unfold get_tracks_by_genre
      rw [mem_sortLe]
      exact List.mem_map.mpr ⟨g'.genreId, hgid, rfl⟩
    · show ((groupRows (fun r => r.2.genreId) g'.genreId (joinGenresTracks db)).map
          fun r => r.1.name).headD default = g'.name
      rw [hname, hgg]
    · exact hcount hg
  · unfold get_tracks_by_genre
    refine (pairwise_sortLe _ ?_ ?_ _).imp fun h => of_decide_eq_true h
    · intro x y z h1 h2
      rw [decide_eq_true_iff] at h1 h2 ⊢
      exact le_trans h2 h1
    · intro x y
      rcases le_total y.NumTracks x.NumTracks with h | h
      · left; exact decide_eq_true h
      · right; exact decide_eq_true h

theorem C3_witness :
    (oneGenreDb.genres.map Genre.genreId).Nodup
      ∧ ((∀ r ∈ get_tracks_by_genre oneGenreDb, ∃ g ∈ oneGenreDb.genres, r.Genre = g.name
            ∧ r.NumTracks
                = (oneGenreDb.tracks.filter fun t => decide (t.genreId = g.genreId)).length)
        ∧ (∀ g ∈ oneGenreDb.genres, (∃ t ∈ oneGenreDb.tracks, t.genreId = g.genreId) →
            ∃ r ∈ get_tracks_by_genre oneGenreDb, r.Genre = g.name
              ∧ r.NumTracks
                  = (oneGenreDb.tracks.filter fun t => decide (t.genreId = g.genreId)).length)
        ∧ (get_tracks_by_genre oneGenreDb).Pairwise fun a b => b.NumTracks ≤ a.NumTracks) :=
  ⟨by decide, C3_amended oneGenreDb (by decide)⟩

/-- C3 counterexample: on a database with one genre, one track of that
genre and two line items for that track, the report shows 1, not the
line-item count 2, so it does not count line items per genre. -/
theorem C3_cex :
    ¬ ∀ r ∈ get_tracks_by_genre oneGenreDb, ∃ g ∈ oneGenreDb.genres,
        r.Genre = g.name ∧ r.NumTracks = genreLineItemCount oneGenreDb g.genreId := by
  decide

/-- C5: get_annual_sales_by_month keeps exactly the joined rows whose
invoice year matches the caller-supplied year (the text SQLite derives
from the integer parameter equals the strftime %Y text only for that
year), grouped by month-of-year; on the fixture with one 2011 line item
and one 2012 line item, year 2012 yields exactly one output row. -/
theorem C5_confirmed (year : ℕ) (db : DB) (hy1 : 1000 ≤ year) (hy2 : year ≤ 9999)
    (hv : ∀ i ∈ db.invoices, i.invoiceDate.year ≤ 9999) :
    get_annual_sales_by_month year db = annualSalesSpec year db
      ∧ (get_annual_sales_by_month 2012 annualFixture).length = 1 := by
  constructor
  · have hfilter : ((joinItemsInvoices db).filter fun r =>
        decide (strftimeY r.2.invoiceDate = natText year))
        = ((joinItemsInvoices db).filter fun r => decide (r.2.invoiceDate.year = year)) := by
      apply List.filter_congr
      intro r hr
      have hyr : r.2.invoiceDate.year ≤ 9999 := hv r.2 (mem_joinItemsInvoices db hr).2
      exact decide_eq_decide.mpr (strftimeY_eq_natText_iff r.2.invoiceDate year hyr hy1 hy2)
    unfold get_annual_sales_by_month annualSalesSpec
    rw [hfilter]
  · decide

unseal Rat.add Rat.mul Rat.inv Rat.sub in
theorem C5_witness :
    (1000 ≤ 2012 ∧ 2012 ≤ 9999 ∧ ∀ i ∈ annualFixture.invoices, i.invoiceDate.year ≤ 9999)
      ∧ (get_annual_sales_by_month 2012 annualFixture = annualSalesSpec 2012 annualFixture
        ∧ (get_annual_sales_by_month 2012 annualFixture).length = 1) :=
  ⟨⟨by decide, by decide, by decide⟩,
    C5_confirmed 2012 annualFixture (by decide) (by decide) (by decide)⟩

unseal Rat.add Rat.mul Rat.inv Rat.sub in
/-- C7: for every N at least 1, the active top-artists report returns
at most N rows, ordered with TotalSales monotonically non-increasing;
the four-artist fixture with totals 500, 300, 200, 100 and N = 3 yields
exactly the rows for A, B, C in that order. -/
theorem C7_confirmed (N : ℕ) (db : DB) (hN : 1 ≤ N) :
    ((get_top_artists_by_sales N db).length ≤ N
      ∧ (get_top_artists_by_sales N db).Pairwise fun a b => b.TotalSales ≤ a.TotalSales)
      ∧ (get_top_artists_by_sales 3 topFixture).map (fun r => (r.index, r.TotalSales, r.Quantity))
          = [("A", 500, 1), ("B", 300, 1), ("C", 200, 1)] := by
  refine ⟨⟨?_, ?_⟩, ?_⟩
  · unfold get_top_artists_by_sales
    rw [List.length_take]
    exact min_le_left _ _
  · unfold get_top_artists_by_sales
    apply List.Pairwise.sublist (List.take_sublist _ _)
    refine (pairwise_sortLe _ ?_ ?_ _).imp fun h => of_decide_eq_true h
    · intro x y z h1 h2
      rw [decide_eq_true_iff] at h1 h2 ⊢
      exact le_trans h2 h1
    · intro x y
      rcases le_total y.TotalSales x.TotalSales with h | h
      · left; exact decide_eq_true h
      · right; exact decide_eq_true h
  · decide

unseal Rat.add Rat.mul Rat.inv Rat.sub in
theorem C7_witness :
    1 ≤ 3
      ∧ (((get_top_artists_by_sales 3 topFixture).length ≤ 3
        ∧ (get_top_artists_by_sales 3 topFixture).Pairwise
            fun a b => b.TotalSales ≤ a.TotalSales)
        ∧ (get_top_artists_by_sales 3 topFixture).map
              (fun r => (r.index, r.TotalSales, r.Quantity))
            = [("A", 500, 1), ("B", 300, 1), ("C", 200, 1)]) :=
  ⟨by decide, C7_confirmed 3 topFixture (by decide)⟩

/-- C10: every row of the active top-artists report carries the artist
name as the row index, drawn from the joined data, and its Month value
is the period of the invoice date of the first fetched joined line item
for that artist. -/
theorem C10_confirmed (db : DB) (N : ℕ) (r : ArtistRow)
    (hr : r ∈ get_top_artists_by_sales N db) :
    r.index ∈ (joinFull db).map artistNameOf
      ∧ groupRows artistNameOf r.index (joinFull db) ≠ []
      ∧ r.Month = toPeriodM
          ((groupRows artistNameOf r.index (joinFull db)).headD default).2.1.invoiceDate := by
  unfold get_top_artists_by_sales at hr
  have hr2 := List.mem_of_mem_take hr
  rw [mem_sortLe] at hr2
  rcases List.mem_map.mp hr2 with ⟨k, hk, rfl⟩
  rw [mem_sortLe] at hk
  rcases (mem_groupKeys _ _ _).mp hk with ⟨x, hx, hkey⟩
  have hxg : x ∈ groupRows artistNameOf k (joinFull db) :=
    List.mem_filter.mpr ⟨hx, decide_eq_true hkey⟩
  have hne : groupRows artistNameOf k (joinFull db) ≠ [] := List.ne_nil_of_mem hxg
  refine ⟨List.mem_map.mpr ⟨x, hx, hkey⟩, hne, ?_⟩
  show ((groupRows artistNameOf k (joinFull db)).map
      fun r => toPeriodM r.2.1.invoiceDate).headD default = _
  rw [headD_map _ _ hne]

unseal Rat.add Rat.mul Rat.inv Rat.sub in
theorem C10_witness :
    ((⟨"A", 500, 1, ⟨2012, 1⟩⟩ : ArtistRow) ∈ get_top_artists_by_sales 3 topFixture)
      ∧ (("A" : String) ∈ (joinFull topFixture).map artistNameOf
        ∧ groupRows artistNameOf "A" (joinFull topFixture) ≠ []
        ∧ (⟨2012, 1⟩ : Period) = toPeriodM
            ((groupRows artistNameOf "A" (joinFull topFixture)).headD
              default).2.1.invoiceDate) :=
  ⟨by decide, C10_confirmed topFixture 3 ⟨"A", 500, 1, ⟨2012, 1⟩⟩ (by decide)⟩

lemma sql_as_map (db : DB) :
    get_sales_by_month_sql db
      = (groupKeys (fun r => sqlMonthKey r.2.invoiceDate) (joinItemsInvoices db)).map
          (monthSqlRowOf db) := rfl

lemma pd_as_map (db : DB) :
    get_sales_by_month_pd db
      = (sortLe periodLeB
          (groupKeys (fun r => toPeriodM r.2.invoiceDate) (joinItemsInvoices db))).map
          (monthPdRowOf db) := rfl

lemma groupRows_sql_eq_pd (db : DB)
    (hv : ∀ i ∈ db.invoices, i.invoiceDate.year ≤ 9999 ∧ i.invoiceDate.month ≤ 12)
    (p : Period) (hpy : p.y ≤ 9999) (hpm : p.m ≤ 12) :
    groupRows (fun r => sqlMonthKey r.2.invoiceDate) (periodText p) (joinItemsInvoices db)
      = groupRows (fun r => toPeriodM r.2.invoiceDate) p (joinItemsInvoices db) := by
  unfold groupRows
  apply List.filter_congr
  intro r hr
  obtain ⟨hy, hm⟩ := hv r.2 (mem_joinItemsInvoices db hr).2
  apply decide_eq_decide.mpr
  constructor
  · intro h
    have h2 : periodText (toPeriodM r.2.invoiceDate) = periodText p := h
    exact periodText_inj hy hm hpy hpm h2
  · intro h
    show periodText (toPeriodM r.2.invoiceDate) = periodText p
    exact congrArg periodText h

lemma month_col_eq_key (db : DB) (p : Period)
    (hp : p ∈ groupKeys (fun r => toPeriodM r.2.invoiceDate) (joinItemsInvoices db)) :
    ((groupRows (fun r => toPeriodM r.2.invoiceDate) p (joinItemsInvoices db)).map
      fun r => toPeriodM r.2.invoiceDate).headD default = p := by
  rcases (mem_groupKeys _ _ _).mp hp with ⟨x, hxJ, hxkey⟩
  have hxg : x ∈ groupRows (fun r => toPeriodM r.2.invoiceDate) p (joinItemsInvoices db) :=
    List.mem_filter.mpr ⟨hxJ, decide_eq_true hxkey⟩
  have hne : groupRows (fun r => toPeriodM r.2.invoiceDate) p (joinItemsInvoices db) ≠ [] :=
    List.ne_nil_of_mem hxg
  rw [headD_map _ _ hne]
  exact of_decide_eq_true (List.mem_filter.mp (headD_mem _ hne)).2

/-- C2 (amended): on valid dates, the engine-side and host-side
sales-by-month strategies agree group for group: the same year-month
keys occur (engine-side as the YYYY-MM text of the host-side period),
with identical Quantity sums, while the engine-side TotalSales is the
two-decimal rounding of the host-side raw TotalSales. The original
claim of identical TotalSales values fails when a monetary sum needs
more than two decimals; see the counterexample. -/
theorem C2_amended (db : DB)
    (hv : ∀ i ∈ db.invoices, i.invoiceDate.year ≤ 9999 ∧ i.invoiceDate.month ≤ 12) :
    ∀ q ts m, (⟨q, ts, m⟩ : MonthSqlRow) ∈ get_sales_by_month_sql db ↔
      ∃ r ∈ get_sales_by_month_pd db,
        m = periodText r.Month ∧ q = ((r.Quantity : ℤ) : ℚ) ∧ ts = round2 r.TotalSales := by
  intro q ts m
  rw [sql_as_map, pd_as_map]
  constructor
  · intro h
    rcases List.mem_map.mp h with ⟨s, hs, hrow⟩
    rcases (mem_groupKeys _ _ _).mp hs with ⟨x, hxJ, hxkey⟩
    obtain ⟨hy, hmo⟩ := hv x.2 (mem_joinItemsInvoices db hxJ).2
    have hsp : s = periodText (toPeriodM x.2.invoiceDate) := by rw [← hxkey]; rfl
    have hpkeys : toPeriodM x.2.invoiceDate
        ∈ groupKeys (fun r => toPeriodM r.2.invoiceDate) (joinItemsInvoices db) :=
      (mem_groupKeys _ _ _).mpr ⟨x, hxJ, rfl⟩
    have hpmem : toPeriodM x.2.invoiceDate ∈ sortLe periodLeB
        (groupKeys (fun r => toPeriodM r.2.invoiceDate) (joinItemsInvoices db)) := by
      rw [mem_sortLe]
      exact hpkeys
    have hMonth : (monthPdRowOf db (toPeriodM x.2.invoiceDate)).Month
        = toPeriodM x.2.invoiceDate := month_col_eq_key db _ hpkeys
    have hgrp := groupRows_sql_eq_pd db hv (toPeriodM x.2.invoiceDate) hy hmo
    unfold monthSqlRowOf at hrow
    rw [MonthSqlRow.mk.injEq] at hrow
    obtain ⟨hQ, hT, hM⟩ := hrow
    refine ⟨monthPdRowOf db (toPeriodM x.2.invoiceDate),
      List.mem_map.mpr ⟨_, hpmem, rfl⟩, ?_, ?_, ?_⟩
    · rw [hMonth, ← hM, hsp]
    · rw [← hQ, hsp, hgrp, quantity_sum_cast, round2_intCast]
      rfl
    · rw [← hT, hsp, hgrp]
      rfl
  · rintro ⟨r, hrm, hm, hq, hts⟩
    rcases List.mem_map.mp hrm with ⟨p, hp, hrp⟩
    rw [mem_sortLe] at hp
    rcases (mem_groupKeys _ _ _).mp hp with ⟨x, hxJ, hxkey⟩
    obtain ⟨hy, hmo⟩ := hv x.2 (mem_joinItemsInvoices db hxJ).2
    subst hxkey
    have hgrp := groupRows_sql_eq_pd db hv (toPeriodM x.2.invoiceDate) hy hmo
    have hMonth : (monthPdRowOf db (toPeriodM x.2.invoiceDate)).Month
        = toPeriodM x.2.invoiceDate :=
      month_col_eq_key db _ ((mem_groupKeys _ _ _).mpr ⟨x, hxJ, rfl⟩)
    have hsmem : periodText (toPeriodM x.2.invoiceDate)
        ∈ groupKeys (fun r => sqlMonthKey r.2.invoiceDate) (joinItemsInvoices db) :=
      (mem_groupKeys _ _ _).mpr ⟨x, hxJ, rfl⟩
    have hrow : (⟨q, ts, m⟩ : MonthSqlRow)
        = monthSqlRowOf db (periodText (toPeriodM x.2.invoiceDate)) := by
      have hrM : r.Month = toPeriodM x.2.invoiceDate := by rw [← hrp]; exact hMonth
      have hrQ : r.Quantity
          = (((groupRows (fun r => toPeriodM r.2.invoiceDate) (toPeriodM x.2.invoiceDate)
              (joinItemsInvoices db)).map fun r => r.1.quantity).sum) := by
        rw [← hrp]
        rfl
      have hrT : r.TotalSales
          = (((groupRows (fun r => toPeriodM r.2.invoiceDate) (toPeriodM x.2.invoiceDate)
              (joinItemsInvoices db)).map
              fun r => r.1.unitPrice * ((r.1.quantity : ℤ) : ℚ)).sum) := by
        rw [← hrp]
        rfl
      unfold monthSqlRowOf
      rw [MonthSqlRow.mk.injEq]
      refine ⟨?_, ?_, ?_⟩
      · rw [hgrp, quantity_sum_cast, round2_intCast, hq, hrQ]
      · rw [hgrp, hts, hrT]
      · rw [hm, hrM]
    rw [hrow]
    exact List.mem_map.mpr ⟨_, hsmem, rfl⟩

unseal Rat.add Rat.mul Rat.inv Rat.sub in
theorem C2_witness :
    (∀ i ∈ milliPriceDb.invoices,
        i.invoiceDate.year ≤ 9999 ∧ i.invoiceDate.month ≤ 12)
      ∧ (∀ q ts m, (⟨q, ts, m⟩ : MonthSqlRow) ∈ get_sales_by_month_sql milliPriceDb ↔
          ∃ r ∈ get_sales_by_month_pd milliPriceDb,
            m = periodText r.Month ∧ q = ((r.Quantity : ℤ) : ℚ)
              ∧ ts = round2 r.TotalSales) :=
  ⟨by decide, C2_amended milliPriceDb (by decide)⟩

unseal Rat.add Rat.mul Rat.inv Rat.sub in
/-- C2 counterexample: with one line item priced 0.001, the engine-side
strategy reports TotalSales 0 for the month while the host-side
strategy reports 0.001, so the two strategies do not produce identical
(Month, Quantity, TotalSales) triples. -/
theorem C2_cex :
    ¬ ∀ rs ∈ get_sales_by_month_sql milliPriceDb, ∃ rp ∈ get_sales_by_month_pd milliPriceDb,
        rs.Month = periodText rp.Month ∧ rs.Quantity = ((rp.Quantity : ℤ) : ℚ)
          ∧ rs.TotalSales = rp.TotalSales := by decide
